import Mathlib

/-
  Verification of the wxchat long-text reflow scripts
  (src/public/js/mobileTextFix.js: classes MobileTextFix and LongTextFix).

  The embedding models the inline-style state of a DOM element as an
  ordered list of CSS declarations; CSSOM setProperty replaces any
  existing declaration for the same property and appends the new one.
  Geometry (scrollHeight, clientHeight) and class membership are fields
  of the element state and are not changed by style writes.  Exceptions
  are modelled by explicit fault knobs: a list of property names whose
  setProperty call throws (caught per-property by both scripts), and a
  flag marking an element whose sub-element query throws (caught by the
  per-element try/catch).
-/

set_option autoImplicit false

namespace WxChat

/-- One inline CSS declaration: property name (kebab-case), value, priority. -/
structure StyleDecl where
  prop : String
  value : String
  prio : String
deriving DecidableEq, Repr

/-- JS `property.replace(/([A-Z])/g, "-$1").toLowerCase()`:
camelCase property names become kebab-case CSS names. -/
def cssPropertyName (s : String) : String :=
  String.mk (s.data.foldr (fun c acc => if c.isUpper then '-' :: c.toLower :: acc else c :: acc) [])

/-- CSSOM `element.style.setProperty`: drop any declaration of the same
property, append the new one. -/
def setProp (st : List StyleDecl) (d : StyleDecl) : List StyleDecl :=
  st.filter (fun d0 => d0.prop != d.prop) ++ [d]

/-- Apply a sequence of declarations in order. -/
def applyDecls (st : List StyleDecl) (ds : List StyleDecl) : List StyleDecl :=
  ds.foldl setProp st

/-- The value currently in force for a property (last declaration wins). -/
def getStyleValue (st : List StyleDecl) (p : String) : Option String :=
  ((st.filter (fun d => d.prop == p)).getLast?).map StyleDecl.value

/-- The declarations that a call of `fixElementStyles`/`applyMobileStyles`
actually writes: entries whose setProperty throws (modelled by the
`failing` list) are skipped by the per-property catch; every surviving
entry is written with priority "important". -/
def declsOf (failing : List String) (ops : List (String × String)) : List StyleDecl :=
  (ops.filter (fun pv => !(failing.contains pv.1))).map
    (fun pv => ⟨cssPropertyName pv.1, pv.2, "important"⟩)

/-- `LongTextFix.fixElementStyles` / `MobileTextFix.applyMobileStyles`
(the two are textually identical): for each `[property, value]` entry of
the style object, convert the name to kebab-case and call
`setProperty(cssProperty, value, "important")`; an exception thrown by
one property is caught and only that property is skipped. -/
def fixElementStyles (failing : List String) (st : List StyleDecl)
    (ops : List (String × String)) : List StyleDecl :=
  ops.foldl (fun acc pv =>
    if failing.contains pv.1 then acc
    else setProp acc ⟨cssPropertyName pv.1, pv.2, "important"⟩) st

/-! ### Basic lemmas about the style-declaration model -/

theorem applyDecls_nil (st : List StyleDecl) : applyDecls st [] = st := rfl

theorem applyDecls_cons (st : List StyleDecl) (d : StyleDecl) (ds : List StyleDecl) :
    applyDecls st (d :: ds) = applyDecls (setProp st d) ds := rfl

theorem applyDecls_append (st : List StyleDecl) (ds1 ds2 : List StyleDecl) :
    applyDecls st (ds1 ++ ds2) = applyDecls (applyDecls st ds1) ds2 :=
  List.foldl_append _ _ _ _

/-- Declarations of `st` that no declaration of `ds` overrides. -/
def keyNotIn (ds : List StyleDecl) (d : StyleDecl) : Bool :=
  !((ds.map StyleDecl.prop).contains d.prop)

theorem keyNotIn_nil (d : StyleDecl) : keyNotIn [] d = true := rfl

/-- Canonical form: applying a declaration sequence keeps the untouched
part of the old style list and appends the net effect of the sequence. -/
theorem applyDecls_canon (ds : List StyleDecl) :
    ∀ st : List StyleDecl, applyDecls st ds = st.filter (keyNotIn ds) ++ applyDecls [] ds := by
  induction ds with
  | nil =>
    intro st
    rw [applyDecls_nil, applyDecls_nil, List.append_nil]
    exact (List.filter_eq_self.mpr (fun a _ => keyNotIn_nil a)).symm
  | cons d ds ih =>
    intro st
    rw [applyDecls_cons, ih (setProp st d), applyDecls_cons ([]) d ds, ih (setProp [] d)]
    show (setProp st d).filter (keyNotIn ds) ++ applyDecls [] ds
      = st.filter (keyNotIn (d :: ds)) ++ ((setProp [] d).filter (keyNotIn ds) ++ applyDecls [] ds)
    have hsp : setProp [] d = [d] := rfl
    rw [hsp]
    show (st.filter (fun d0 => d0.prop != d.prop) ++ [d]).filter (keyNotIn ds) ++ applyDecls [] ds
      = st.filter (keyNotIn (d :: ds)) ++ ([d].filter (keyNotIn ds) ++ applyDecls [] ds)
    rw [List.filter_append]
    have hff : (st.filter (fun d0 => d0.prop != d.prop)).filter (keyNotIn ds)
        = st.filter (keyNotIn (d :: ds)) := by
      rw [List.filter_filter]
      apply List.filter_congr
      intro x _
      by_cases hx : x.prop = d.prop
      · simp [keyNotIn, List.contains_cons, hx, bne]
      · simp [keyNotIn, List.contains_cons, hx, bne, Ne.symm hx]
    rw [hff, List.append_assoc]

/-- Every declaration produced by a sequence comes from the sequence. -/
theorem mem_applyDecls_nil (ds : List StyleDecl) :
    ∀ d : StyleDecl, d ∈ applyDecls [] ds → d ∈ ds := by
  induction ds with
  | nil => intro d h; simp [applyDecls] at h
  | cons d0 ds ih =>
    intro d h
    rw [applyDecls_cons, show setProp [] d0 = [d0] from rfl, applyDecls_canon ds [d0]] at h
    rcases List.mem_append.mp h with h1 | h2
    · have hd : d ∈ [d0] := List.mem_of_mem_filter h1
      simp at hd
      simp [hd]
    · exact List.mem_cons_of_mem _ (ih d h2)

/-- Applying the same declaration sequence twice is the same as once. -/
theorem applyDecls_idem (st ds : List StyleDecl) :
    applyDecls (applyDecls st ds) ds = applyDecls st ds := by
  rw [applyDecls_canon ds st, applyDecls_canon ds (st.filter (keyNotIn ds) ++ applyDecls [] ds),
    List.filter_append, List.filter_filter]
  have h1 : st.filter (fun a => keyNotIn ds a && keyNotIn ds a) = st.filter (keyNotIn ds) := by
    apply List.filter_congr
    intro x _
    rw [Bool.and_self]
  have h2 : (applyDecls [] ds).filter (keyNotIn ds) = [] := by
    rw [List.filter_eq_nil_iff]
    intro a ha
    have hmem := mem_applyDecls_nil ds a ha
    simp [keyNotIn]
    exact ⟨a, hmem, rfl⟩
  rw [h1, h2, List.append_nil]

/-- `fixElementStyles` is `applyDecls` of the written declarations. -/
theorem fixElementStyles_eq (failing : List String) (ops : List (String × String)) :
    ∀ st : List StyleDecl, fixElementStyles failing st ops = applyDecls st (declsOf failing ops) := by
  induction ops with
  | nil => intro st; rfl
  | cons pv ops ih =>
    intro st
    by_cases h : failing.contains pv.1
    · have hd : declsOf failing (pv :: ops) = declsOf failing ops := by
        simp only [declsOf, List.filter_cons]
        rw [if_neg (by simpa using h)]
      rw [hd]
      have hstep : fixElementStyles failing st (pv :: ops) = fixElementStyles failing st ops := by
        simp only [fixElementStyles, List.foldl_cons, if_pos h]
      rw [hstep]
      exact ih st
    · have hd : declsOf failing (pv :: ops)
          = ⟨cssPropertyName pv.1, pv.2, "important"⟩ :: declsOf failing ops := by
        simp only [declsOf, List.filter_cons]
        rw [if_pos (by simpa using h)]
        rfl
      rw [hd, applyDecls_cons]
      have hstep : fixElementStyles failing st (pv :: ops)
          = fixElementStyles failing
              (setProp st ⟨cssPropertyName pv.1, pv.2, "important"⟩) ops := by
        simp only [fixElementStyles, List.foldl_cons, if_neg h]
      rw [hstep]
      exact ih _

/-! ### DOM element model

A message element (`.message`) with its relevant descendants.  Style
state is the inline-style declaration list; geometry and class
membership are plain fields.  `failing` lists the property names whose
`setProperty` throws; `queryFails` marks an element whose sub-element
query throws (the modelled throw point inside the per-element
`try`-block of `fixMobileMessage` / `applyFixes`). -/

/-- A styled sub-element with no further modelled structure
(a `.message-content` wrapper, a link `a`, or a `pre` block). -/
structure SubEl where
  styles : List StyleDecl
  failing : List String
deriving DecidableEq, Repr

/-- An inline `code` element; `parentIsPre` is true when its parent
element exists and has tag name PRE. -/
structure CodeEl where
  parentIsPre : Bool
  styles : List StyleDecl
  failing : List String
deriving DecidableEq, Repr

/-- A `.text-message` element.  `textNodes` are the text contents of the
text nodes below it (as visited by the TreeWalker of `breakLongWords`). -/
structure TextMsg where
  markdownRendered : Bool
  scrollHeight : Nat
  clientHeight : Nat
  textNodes : List String
  links : List SubEl
  pres : List SubEl
  codes : List CodeEl
  styles : List StyleDecl
  failing : List String
deriving DecidableEq, Repr

/-- A `.message` element.  `dataMessageId` is `dataset.messageId`
(`none` when the attribute is absent); `idAttr` is `element.id`
(empty string when absent), matching the DOM defaults. -/
structure MsgEl where
  dataMessageId : Option String
  idAttr : String
  messageContent : Option SubEl
  textMessages : List TextMsg
  styles : List StyleDecl
  failing : List String
  queryFails : Bool
deriving DecidableEq, Repr

/-! ### MobileTextFix (src/public/js/mobileTextFix.js, lines 6-320) -/

/-- Styles for the message container in `fixMobileMessage`. -/
def mobileContainerOps (small : Bool) : List (String × String) :=
  [("maxWidth", if small then "95%" else "90%"),
   ("maxHeight", "none"), ("height", "auto"), ("overflow", "visible")]

/-- Styles for `.message-content` in `fixMobileMessage`. -/
def mobileContentOps : List (String × String) :=
  [("maxHeight", "none"), ("height", "auto"), ("overflow", "visible"),
   ("wordWrap", "break-word"), ("wordBreak", "break-word")]

/-- The `mobileStyles` object of `fixMobileTextMessage`: the fixed map,
whiteSpace depending on the markdown-rendered class, plus the two
small-screen entries added when `isSmallScreen`. -/
def mobileTextOps (small : Bool) (t : TextMsg) : List (String × String) :=
  [("maxHeight", "none"), ("height", "auto"), ("minHeight", "auto"),
   ("overflow", "visible"), ("overflowX", "visible"), ("overflowY", "visible"),
   ("wordBreak", "break-all"), ("overflowWrap", "anywhere"),
   ("webkitHyphens", "auto"), ("mozHyphens", "auto"), ("hyphens", "auto"),
   ("whiteSpace", if t.markdownRendered then "normal" else "pre-wrap")]
  ++ (if small then [("fontSize", "0.9rem"), ("lineHeight", "1.4")] else [])

/-- Link styles in `fixMobileTextMessage`. -/
def mobileLinkOps (small : Bool) : List (String × String) :=
  [("wordBreak", "break-all"), ("overflowWrap", "anywhere"),
   ("whiteSpace", "normal"), ("fontSize", if small then "0.85rem" else "inherit")]

/-- Styles added by `breakLongWords` to a text message holding a long word. -/
def longWordOps : List (String × String) :=
  [("wordBreak", "break-all"), ("overflowWrap", "anywhere")]

/-- Immediate styles of the `checkMobileOverflow` pulse. -/
def mobilePulseOps (scrollHeight : Nat) : List (String × String) :=
  [("height", "auto"), ("minHeight", toString scrollHeight ++ "px"),
   ("overflow", "visible")]

/-- Styles set by the deferred (100 ms) callback of `checkMobileOverflow`. -/
def mobileResetOps : List (String × String) :=
  [("height", "auto"), ("minHeight", "auto")]

/-- JS `text.split(/(\s+)/)` chunks tested by
`word.length > Math.floor(window.innerWidth / 12) && !/\s/.test(word)`:
a maximal whitespace-free chunk longer than the width estimate.
(Splitting at every whitespace character yields the same non-separator
chunks, plus empty strings that never pass the length test.) -/
def hasLongWordIn (innerWidth : Nat) (text : String) : Bool :=
  (text.split Char.isWhitespace).any (fun wd => decide (wd.length > innerWidth / 12))

/-- `breakLongWords`: for each text node containing a long word, apply
`longWordOps` to the enclosing `.text-message` (the walker is rooted at
the text message, so the ancestor climb always ends there). -/
def breakLongWords (innerWidth : Nat) (t : TextMsg) : TextMsg :=
  t.textNodes.foldl (fun acc txt =>
    if hasLongWordIn innerWidth txt then
      { acc with styles := fixElementStyles acc.failing acc.styles longWordOps }
    else acc) t

/-- `checkMobileOverflow`, synchronous part: when
`scrollHeight > clientHeight + 5` (5 px tolerance), log a warning (the
returned flag) and apply the pulse styles; otherwise do nothing. -/
def checkMobileOverflow (t : TextMsg) : TextMsg × Bool :=
  if t.scrollHeight > t.clientHeight + 5 then
    ({ t with styles := fixElementStyles t.failing t.styles (mobilePulseOps t.scrollHeight) }, true)
  else (t, false)

/-- The deferred `setTimeout(..., 100)` callback of `checkMobileOverflow`. -/
def mobilePulseReset (t : TextMsg) : TextMsg :=
  { t with styles := fixElementStyles t.failing t.styles mobileResetOps }

/-- Apply a style object to an unstructured sub-element. -/
def styleSubEl (ops : List (String × String)) (c : SubEl) : SubEl :=
  { c with styles := fixElementStyles c.failing c.styles ops }

/-- Link handling inside `fixMobileTextMessage`. -/
def fixMobileLink (small : Bool) : SubEl → SubEl :=
  styleSubEl (mobileLinkOps small)

/-- `fixMobileTextMessage`: apply the mobile style map, style every
link, run `breakLongWords`, then `checkMobileOverflow`. -/
def fixMobileTextMessage (small : Bool) (innerWidth : Nat) (t : TextMsg) : TextMsg :=
  let t1 := { t with styles := fixElementStyles t.failing t.styles (mobileTextOps small t) }
  let t2 := { t1 with links := t1.links.map (fixMobileLink small) }
  let t3 := breakLongWords innerWidth t2
  (checkMobileOverflow t3).1

/-- `fixMobileMessage` inside its `try`-block: container styles, then
`.message-content` (when present), then every `.text-message`.  The
second component records a thrown exception (modelled at the
sub-element query of a `queryFails` element): the caught state keeps
the container styles already applied. -/
def rawFixMobileMessage (small : Bool) (innerWidth : Nat) (m : MsgEl) : MsgEl × Option String :=
  let m1 := { m with styles := fixElementStyles m.failing m.styles (mobileContainerOps small) }
  if m1.queryFails then (m1, some "TypeError")
  else
    let m2 := { m1 with messageContent := m1.messageContent.map (styleSubEl mobileContentOps) }
    let m3 := { m2 with textMessages :=
      m2.textMessages.map (fixMobileTextMessage small innerWidth) }
    (m3, none)

/-- `fixMobileMessage`: the `catch` logs the error and keeps the work
already performed. -/
def fixMobileMessage (small : Bool) (innerWidth : Nat) (m : MsgEl) : MsgEl :=
  (rawFixMobileMessage small innerWidth m).1

/-- `applyMobileFixes`: fix every `.message` element of the document.
No set of processed elements is consulted. -/
def applyMobileFixes (small : Bool) (innerWidth : Nat) (messages : List MsgEl) : List MsgEl :=
  messages.map (fixMobileMessage small innerWidth)

/-! ### LongTextFix (src/public/js/mobileTextFix.js, lines 326-615) -/

/-- Container styles in `applyFixes`. -/
def longContainerOps : List (String × String) :=
  [("maxHeight", "none"), ("height", "auto"), ("minHeight", "auto"),
   ("overflow", "visible"), ("overflowX", "visible"), ("overflowY", "visible"),
   ("display", "flex"), ("flexDirection", "column"),
   ("flexShrink", "0"), ("flexGrow", "0")]

/-- `.message-content` styles in `applyFixes`. -/
def longContentOps : List (String × String) :=
  [("maxHeight", "none"), ("height", "auto"), ("minHeight", "auto"),
   ("overflow", "visible"), ("overflowX", "visible"), ("overflowY", "visible"),
   ("wordWrap", "break-word"), ("wordBreak", "break-word"),
   ("display", "block"), ("flexShrink", "0"), ("flexGrow", "0")]

/-- `.text-message` styles in `applyFixes`, whiteSpace depending on the
markdown-rendered class. -/
def longTextOps (t : TextMsg) : List (String × String) :=
  [("maxHeight", "none"), ("height", "auto"), ("minHeight", "auto"),
   ("overflow", "visible"), ("overflowX", "visible"), ("overflowY", "visible"),
   ("textOverflow", "clip"), ("webkitLineClamp", "none"), ("lineClamp", "none"),
   ("webkitBoxOrient", "unset"), ("display", "block"),
   ("flexShrink", "0"), ("flexGrow", "0"),
   ("whiteSpace", if t.markdownRendered then "normal" else "pre-wrap"),
   ("wordWrap", "break-word"), ("wordBreak", "break-word"),
   ("overflowWrap", "break-word"), ("hyphens", "auto")]

/-- Link styles in `applyFixes`. -/
def longLinkOps : List (String × String) :=
  [("wordWrap", "break-word"), ("wordBreak", "break-all"),
   ("whiteSpace", "normal"), ("overflowWrap", "break-word"), ("hyphens", "auto")]

/-- `pre` block styles in `applyFixes`. -/
def longPreOps : List (String × String) :=
  [("maxHeight", "none"), ("height", "auto"), ("overflowX", "auto"),
   ("overflowY", "visible"), ("whiteSpace", "pre-wrap"), ("wordWrap", "break-word")]

/-- Inline `code` styles in `applyFixes`. -/
def longCodeOps : List (String × String) :=
  [("whiteSpace", "pre-wrap"), ("wordWrap", "break-word"), ("wordBreak", "break-word")]

/-- Immediate styles of the `checkForOverflow` pulse. -/
def longPulseOps (scrollHeight : Nat) : List (String × String) :=
  [("height", toString scrollHeight ++ "px"),
   ("minHeight", toString scrollHeight ++ "px")]

/-- Styles set by the deferred (100 ms) callback of `checkForOverflow`. -/
def longResetOps : List (String × String) :=
  [("height", "auto"), ("minHeight", "auto")]

/-- Link handling inside the `.text-message` loop of `applyFixes`. -/
def fixLongLink : SubEl → SubEl := styleSubEl longLinkOps

/-- `pre` handling inside the `.text-message` loop of `applyFixes`. -/
def fixLongPre : SubEl → SubEl := styleSubEl longPreOps

/-- Inline `code` handling: styled only when
`!code.parentElement || code.parentElement.tagName !== "PRE"`. -/
def fixLongCode (c : CodeEl) : CodeEl :=
  if c.parentIsPre then c
  else { c with styles := fixElementStyles c.failing c.styles longCodeOps }

/-- The `.text-message` loop body of `applyFixes`: style map, links,
`pre` blocks, inline codes. -/
def fixLongTextMessage (t : TextMsg) : TextMsg :=
  let t1 := { t with styles := fixElementStyles t.failing t.styles (longTextOps t) }
  let t2 := { t1 with links := t1.links.map fixLongLink }
  let t3 := { t2 with pres := t2.pres.map fixLongPre }
  { t3 with codes := t3.codes.map fixLongCode }

/-- `checkForOverflow` per text message, synchronous part: when
`scrollHeight > clientHeight` (no tolerance), log a warning (the
returned flag) and apply the pulse styles; otherwise do nothing. -/
def checkForOverflowText (t : TextMsg) : TextMsg × Bool :=
  if t.scrollHeight > t.clientHeight then
    ({ t with styles := fixElementStyles t.failing t.styles (longPulseOps t.scrollHeight) }, true)
  else (t, false)

/-- The deferred `setTimeout(..., 100)` callback of `checkForOverflow`. -/
def longPulseReset (t : TextMsg) : TextMsg :=
  { t with styles := fixElementStyles t.failing t.styles longResetOps }

/-- `checkForOverflow(messageElement)`: run the overflow check on every
`.text-message` below the message element. -/
def checkForOverflow (m : MsgEl) : MsgEl :=
  { m with textMessages := m.textMessages.map (fun t => (checkForOverflowText t).1) }

/-- `applyFixes` inside its `try`-block: container styles, then
`.message-content` (when present), then every `.text-message`, then
`checkForOverflow`.  The second component records a thrown exception
(modelled at the sub-element query of a `queryFails` element). -/
def rawApplyFixes (m : MsgEl) : MsgEl × Option String :=
  let m1 := { m with styles := fixElementStyles m.failing m.styles longContainerOps }
  if m1.queryFails then (m1, some "TypeError")
  else
    let m2 := { m1 with messageContent := m1.messageContent.map (styleSubEl longContentOps) }
    let m3 := { m2 with textMessages := m2.textMessages.map fixLongTextMessage }
    (checkForOverflow m3, none)

/-- `applyFixes`: the `catch` logs the error and keeps the work already
performed. -/
def applyFixes (m : MsgEl) : MsgEl := (rawApplyFixes m).1

/-- `message.dataset.messageId || message.id || "unknown"`: JS `||`
falls through on `undefined` and on the empty string. -/
def messageId (m : MsgEl) : String :=
  let ds := m.dataMessageId.getD ""
  if ds ≠ "" then ds
  else if m.idAttr ≠ "" then m.idAttr
  else "unknown"

/-- The per-message body of `fixMessageElement`: skip the message when
its id is already in `fixedElements`, otherwise apply the fixes and add
the id to the set (modelled as a list without duplicates). -/
def fixMessageElementStep (fixed : List String) (m : MsgEl) : List String × MsgEl :=
  if fixed.contains (messageId m) then (fixed, m)
  else (messageId m :: fixed, applyFixes m)

/-- A LongTextFix scan over the matched `.message` elements (both
`fixAllMessages` and the mutation callback feed every matched message
through `fixMessageElement`), threading the `fixedElements` set. -/
def fixMessages : List String → List MsgEl → List String × List MsgEl
  | fixed, [] => (fixed, [])
  | fixed, m :: ms =>
    let p := fixMessageElementStep fixed m
    let q := fixMessages p.1 ms
    (q.1, p.2 :: q.2)

/-- `fixAllMessages`: scan all `.message` elements of the container. -/
def fixAllMessages (fixed : List String) (container : List MsgEl) : List String × List MsgEl :=
  fixMessages fixed container

/-- `manualFix`: `this.fixedElements.clear(); this.fixAllMessages();` —
the previous tracked set is discarded and the scan restarts empty. -/
def manualFix (_fixed : List String) (container : List MsgEl) : List String × List MsgEl :=
  fixAllMessages [] container

/-! ### Device detection and MobileTextFix.init -/

/-- Lower-case a string character by character (ASCII case folding, as
the `/i` regex flag does for the listed literals). -/
def jsToLower (s : String) : String := String.mk (s.data.map Char.toLower)

/-- `pat` occurs as a contiguous sublist of the character list. -/
def hasSubList (pat : List Char) : List Char → Bool
  | [] => pat.isEmpty
  | c :: rest => List.isPrefixOf pat (c :: rest) || hasSubList pat rest

/-- `s` contains `pat` as a substring. -/
def containsStr (s pat : String) : Bool := hasSubList pat.data s.data

/-- The regex `/Android|iPhone|iPad|iPod|BlackBerry|IEMobile|Opera Mini/i`:
a case-insensitive alternation of literals. -/
def isMobileUA (ua : String) : Bool :=
  ["android", "iphone", "ipad", "ipod", "blackberry", "iemobile", "opera mini"].any
    (fun p => containsStr (jsToLower ua) p)

/-- The browser signals read by `detectMobile` and `init`. -/
structure DeviceEnv where
  userAgent : String
  /-- `("ontouchstart" in window) || navigator.maxTouchPoints > 0` -/
  touchDevice : Bool
  innerWidth : Nat
  /-- `document.readyState === "loading"` -/
  docLoading : Bool
  /-- `document.querySelector(".message-list") !== null` -/
  hasMessageList : Bool
deriving DecidableEq, Repr

/-- `detectMobile` (identical in both classes). -/
def detectMobile (env : DeviceEnv) : Bool :=
  isMobileUA env.userAgent || (env.touchDevice && decide (env.innerWidth ≤ 768))

/-- The externally visible registrations made while constructing
`MobileTextFix`. -/
structure InitEffects where
  windowListeners : List String
  documentListeners : List String
  observerConnected : Bool
  intervalsMs : List Nat
deriving DecidableEq, Repr

/-- No listeners, no observer, no interval. -/
def emptyEffects : InitEffects :=
  { windowListeners := [], documentListeners := [], observerConnected := false,
    intervalsMs := [] }

/-- `MobileTextFix.init` together with the scan it triggers: when
`detectMobile` fails it returns at once; otherwise it wires up the
DOMContentLoaded path or runs `startMobileFix` (immediate
`applyMobileFixes` scan, MutationObserver on `.message-list`, 3000 ms
interval) and registers the orientationchange and resize listeners. -/
def mobileInit (env : DeviceEnv) (messages : List MsgEl) : InitEffects × List MsgEl :=
  if !(detectMobile env) then (emptyEffects, messages)
  else
    let small := decide (env.innerWidth ≤ 480)
    if env.docLoading then
      ({ windowListeners := ["orientationchange", "resize"],
         documentListeners := ["DOMContentLoaded"],
         observerConnected := false, intervalsMs := [] }, messages)
    else
      ({ windowListeners := ["orientationchange", "resize"],
         documentListeners := [],
         observerConnected := env.hasMessageList, intervalsMs := [3000] },
       applyMobileFixes small env.innerWidth messages)

/-! ### Idempotence lemmas -/

theorem fES_twice (f : List String) (st : List StyleDecl) (ops : List (String × String)) :
    fixElementStyles f (fixElementStyles f st ops) ops = fixElementStyles f st ops := by
  simp only [fixElementStyles_eq]
  exact applyDecls_idem _ _

theorem list_map_idem {α : Type} (f : α → α) (h : ∀ a, f (f a) = f a) :
    ∀ l : List α, (l.map f).map f = l.map f := by
  intro l
  induction l with
  | nil => rfl
  | cons a l ih => simp only [List.map_cons, h a, ih]

theorem option_map_idem {α : Type} (f : α → α) (h : ∀ a, f (f a) = f a) (o : Option α) :
    (o.map f).map f = o.map f := by
  cases o with
  | none => rfl
  | some a => exact congrArg some (h a)

theorem styleSubEl_idem (ops : List (String × String)) (c : SubEl) :
    styleSubEl ops (styleSubEl ops c) = styleSubEl ops c := by
  cases c
  simp [styleSubEl, fES_twice]

theorem fixMobileLink_idem (small : Bool) (l : SubEl) :
    fixMobileLink small (fixMobileLink small l) = fixMobileLink small l :=
  styleSubEl_idem _ l

theorem fixLongCode_idem (c : CodeEl) : fixLongCode (fixLongCode c) = fixLongCode c := by
  cases c with
  | mk pre st f =>
    by_cases h : pre
    · simp [fixLongCode, h]
    · simp [fixLongCode, h, fES_twice]

/-- The net declarations written by `breakLongWords`. -/
def lwDecls (w : Nat) (f : List String) : List String → List StyleDecl
  | [] => []
  | txt :: rest =>
    (if hasLongWordIn w txt then declsOf f longWordOps else []) ++ lwDecls w f rest

theorem breakLongWords_aux (w : Nat) :
    ∀ (nodes : List String) (t : TextMsg),
      nodes.foldl (fun acc txt =>
        if hasLongWordIn w txt then
          { acc with styles := fixElementStyles acc.failing acc.styles longWordOps }
        else acc) t
      = { t with styles := applyDecls t.styles (lwDecls w t.failing nodes) } := by
  intro nodes
  induction nodes with
  | nil => intro t; cases t; rfl
  | cons txt rest ih =>
    intro t
    cases t with
    | mk md sh ch tnodes links pres codes st f =>
      by_cases h : hasLongWordIn w txt
      · rw [List.foldl_cons, if_pos h, ih]
        simp only [lwDecls, if_pos h, fixElementStyles_eq, applyDecls_append]
      · rw [List.foldl_cons, if_neg h, ih]
        simp only [lwDecls, if_neg h, List.nil_append]

theorem breakLongWords_eq (w : Nat) (t : TextMsg) :
    breakLongWords w t = { t with styles := applyDecls t.styles (lwDecls w t.failing t.textNodes) } :=
  breakLongWords_aux w t.textNodes t

/-- Net declarations of one `fixMobileTextMessage` pass on the text
message's own style list: the mobile map, the long-word additions, and
(when the tolerance is exceeded) the pulse. -/
def mobileTextDecls (small : Bool) (w : Nat) (t : TextMsg) : List StyleDecl :=
  declsOf t.failing (mobileTextOps small t)
  ++ lwDecls w t.failing t.textNodes
  ++ (if t.scrollHeight > t.clientHeight + 5 then
        declsOf t.failing (mobilePulseOps t.scrollHeight) else [])

theorem fixMobileTextMessage_eq (small : Bool) (w : Nat) (t : TextMsg) :
    fixMobileTextMessage small w t
      = { t with styles := applyDecls t.styles (mobileTextDecls small w t),
                 links := t.links.map (fixMobileLink small) } := by
  cases t with
  | mk md sh ch tnodes links pres codes st f =>
    by_cases h : sh > ch + 5
    · simp only [fixMobileTextMessage, breakLongWords_eq, checkMobileOverflow, mobileTextDecls,
        fixElementStyles_eq, if_pos h, applyDecls_append]
    · simp only [fixMobileTextMessage, breakLongWords_eq, checkMobileOverflow, mobileTextDecls,
        fixElementStyles_eq, if_neg h, applyDecls_append, List.append_nil]

theorem fixMobileTextMessage_idem (small : Bool) (w : Nat) (t : TextMsg) :
    fixMobileTextMessage small w (fixMobileTextMessage small w t)
      = fixMobileTextMessage small w t := by
  cases t with
  | mk md sh ch tnodes links pres codes st f =>
    have hl := list_map_idem (fixMobileLink small) (fixMobileLink_idem small) links
    rw [fixMobileTextMessage_eq, fixMobileTextMessage_eq]
    simp only [mobileTextDecls, mobileTextOps]
    rw [hl, applyDecls_idem]

/-- One full LongTextFix pass over a text message: the `.text-message`
loop body of `applyFixes` followed by the `checkForOverflow` step. -/
def fixAndCheckLong (t : TextMsg) : TextMsg :=
  (checkForOverflowText (fixLongTextMessage t)).1

/-- Net declarations of one LongTextFix pass on the text message's own
style list. -/
def longTextDecls (t : TextMsg) : List StyleDecl :=
  declsOf t.failing (longTextOps t)
  ++ (if t.scrollHeight > t.clientHeight then
        declsOf t.failing (longPulseOps t.scrollHeight) else [])

theorem fixAndCheckLong_eq (t : TextMsg) :
    fixAndCheckLong t
      = { t with styles := applyDecls t.styles (longTextDecls t),
                 links := t.links.map fixLongLink,
                 pres := t.pres.map fixLongPre,
                 codes := t.codes.map fixLongCode } := by
  cases t with
  | mk md sh ch tnodes links pres codes st f =>
    by_cases h : sh > ch
    · simp only [fixAndCheckLong, fixLongTextMessage, checkForOverflowText, longTextDecls,
        fixElementStyles_eq, if_pos h, applyDecls_append]
    · simp only [fixAndCheckLong, fixLongTextMessage, checkForOverflowText, longTextDecls,
        fixElementStyles_eq, if_neg h, applyDecls_append, List.append_nil]

theorem fixAndCheckLong_idem (t : TextMsg) :
    fixAndCheckLong (fixAndCheckLong t) = fixAndCheckLong t := by
  cases t with
  | mk md sh ch tnodes links pres codes st f =>
    have hl := list_map_idem fixLongLink (fun a => styleSubEl_idem longLinkOps a) links
    have hp := list_map_idem fixLongPre (fun a => styleSubEl_idem longPreOps a) pres
    have hc := list_map_idem fixLongCode fixLongCode_idem codes
    rw [fixAndCheckLong_eq, fixAndCheckLong_eq]
    simp only [longTextDecls, longTextOps]
    rw [hl, hp, hc, applyDecls_idem]

theorem fixMobileMessage_eq (small : Bool) (w : Nat) (m : MsgEl)
    (hq : m.queryFails = false) :
    fixMobileMessage small w m
      = { m with styles := fixElementStyles m.failing m.styles (mobileContainerOps small),
                 messageContent := m.messageContent.map (styleSubEl mobileContentOps),
                 textMessages := m.textMessages.map (fixMobileTextMessage small w) } := by
  cases m with
  | mk dmid idA mc tms st f qf =>
    cases qf with
    | false => rfl
    | true => simp at hq

theorem fixMobileMessage_fail_eq (small : Bool) (w : Nat) (m : MsgEl)
    (hq : m.queryFails = true) :
    fixMobileMessage small w m
      = { m with styles := fixElementStyles m.failing m.styles (mobileContainerOps small) } := by
  cases m with
  | mk dmid idA mc tms st f qf =>
    cases qf with
    | false => simp at hq
    | true => rfl

theorem fixMobileMessage_idem (small : Bool) (w : Nat) (m : MsgEl) :
    fixMobileMessage small w (fixMobileMessage small w m) = fixMobileMessage small w m := by
  cases m with
  | mk dmid idA mc tms st f qf =>
    cases qf with
    | true =>
      rw [fixMobileMessage_fail_eq small w _ rfl, fixMobileMessage_fail_eq small w _ rfl]
      simp only [fES_twice]
    | false =>
      rw [fixMobileMessage_eq small w _ rfl, fixMobileMessage_eq small w _ rfl]
      simp only [fES_twice,
        option_map_idem (styleSubEl mobileContentOps) (styleSubEl_idem mobileContentOps) mc,
        list_map_idem (fixMobileTextMessage small w) (fixMobileTextMessage_idem small w) tms]

theorem applyFixes_eq (m : MsgEl) (hq : m.queryFails = false) :
    applyFixes m
      = { m with styles := fixElementStyles m.failing m.styles longContainerOps,
                 messageContent := m.messageContent.map (styleSubEl longContentOps),
                 textMessages := m.textMessages.map fixAndCheckLong } := by
  cases m with
  | mk dmid idA mc tms st f qf =>
    cases qf with
    | false =>
      show (checkForOverflow _, (none : Option String)).1 = _
      simp only [checkForOverflow, List.map_map]
      rfl
    | true => simp at hq

theorem applyFixes_fail_eq (m : MsgEl) (hq : m.queryFails = true) :
    applyFixes m
      = { m with styles := fixElementStyles m.failing m.styles longContainerOps } := by
  cases m with
  | mk dmid idA mc tms st f qf =>
    cases qf with
    | false => simp at hq
    | true => rfl

theorem applyFixes_idem (m : MsgEl) :
    applyFixes (applyFixes m) = applyFixes m := by
  cases m with
  | mk dmid idA mc tms st f qf =>
    cases qf with
    | true =>
      rw [applyFixes_fail_eq _ rfl, applyFixes_fail_eq _ rfl]
      simp only [fES_twice]
    | false =>
      rw [applyFixes_eq _ rfl, applyFixes_eq _ rfl]
      simp only [fES_twice,
        option_map_idem (styleSubEl longContentOps) (styleSubEl_idem longContentOps) mc,
        list_map_idem fixAndCheckLong fixAndCheckLong_idem tms]

/-! ### Reading back style values -/

theorem getStyleValue_applyDecls (st ds : List StyleDecl) (p : String)
    (h : (ds.map StyleDecl.prop).contains p = true) :
    getStyleValue (applyDecls st ds) p = getStyleValue (applyDecls [] ds) p := by
  rw [applyDecls_canon]
  unfold getStyleValue
  rw [List.filter_append]
  have hnil : (st.filter (keyNotIn ds)).filter (fun d => d.prop == p) = [] := by
    rw [List.filter_eq_nil_iff]
    intro a ha
    have hk : keyNotIn ds a = true := List.of_mem_filter ha
    simp only [keyNotIn, Bool.not_eq_true'] at hk
    intro hap
    have hap2 : a.prop = p := by simpa using hap
    rw [hap2] at hk
    rw [hk] at h
    exact Bool.false_ne_true h
  rw [hnil, List.nil_append]

theorem gsv_pulse_mobile (st : List StyleDecl) (sh : Nat) :
    getStyleValue (fixElementStyles [] st (mobilePulseOps sh)) "min-height"
      = some (toString sh ++ "px") := by
  rw [fixElementStyles_eq, getStyleValue_applyDecls _ _ _ (by rfl)]
  rfl

theorem gsv_pulse_long (st : List StyleDecl) (sh : Nat) :
    getStyleValue (fixElementStyles [] st (longPulseOps sh)) "min-height"
      = some (toString sh ++ "px") := by
  rw [fixElementStyles_eq, getStyleValue_applyDecls _ _ _ (by rfl)]
  rfl

theorem gsv_reset_mobile (st : List StyleDecl) :
    getStyleValue (fixElementStyles [] st mobileResetOps) "min-height" = some "auto" := by
  rw [fixElementStyles_eq, getStyleValue_applyDecls _ _ _ (by rfl)]
  rfl

theorem gsv_reset_long (st : List StyleDecl) :
    getStyleValue (fixElementStyles [] st longResetOps) "min-height" = some "auto" := by
  rw [fixElementStyles_eq, getStyleValue_applyDecls _ _ _ (by rfl)]
  rfl

/-! ### Scan lemmas -/

theorem fixMessages_cons (fixed : List String) (m : MsgEl) (ms : List MsgEl) :
    fixMessages fixed (m :: ms)
      = if fixed.contains (messageId m)
        then ((fixMessages fixed ms).1, m :: (fixMessages fixed ms).2)
        else ((fixMessages (messageId m :: fixed) ms).1,
              applyFixes m :: (fixMessages (messageId m :: fixed) ms).2) := by
  by_cases h : messageId m ∈ fixed
  · simp [fixMessages, fixMessageElementStep, h]
  · simp [fixMessages, fixMessageElementStep, h]

theorem fixMessages_all_fresh :
    ∀ (c : List MsgEl) (fixed : List String),
      (∀ m ∈ c, fixed.contains (messageId m) = false) →
      (c.map messageId).Nodup →
      (fixMessages fixed c).2 = c.map applyFixes := by
  intro c
  induction c with
  | nil => intro fixed _ _; rfl
  | cons m ms ih =>
    intro fixed hf hn
    have hm : fixed.contains (messageId m) = false := hf m (List.mem_cons_self m ms)
    rw [fixMessages_cons, if_neg (by simpa using hm)]
    show applyFixes m :: (fixMessages (messageId m :: fixed) ms).2 = _
    rw [List.map_cons]
    congr 1
    apply ih
    · intro m2 hm2
      rw [List.contains_cons]
      have hne : (messageId m2 == messageId m) = false := by
        rw [List.map_cons, List.nodup_cons] at hn
        have hmem : messageId m2 ∈ ms.map messageId := List.mem_map_of_mem messageId hm2
        simp only [beq_eq_false_iff_ne, ne_eq]
        intro hcontra
        rw [hcontra] at hmem
        exact hn.1 hmem
      rw [hne, hf m2 (List.mem_cons_of_mem m hm2)]
      rfl
    · rw [List.map_cons, List.nodup_cons] at hn
      exact hn.2

/-! ### Claim theorems -/

/-- Example text message whose scroll extent exceeds its client extent
by 3 px (within the 5 px tolerance), with no styling faults. -/
def exC1 : TextMsg :=
  { markdownRendered := false, scrollHeight := 103, clientHeight := 100,
    textNodes := [], links := [], pres := [], codes := [], styles := [], failing := [] }

/-- C1 counterexample: the claim says an element whose scroll extent
exceeds the client extent by 5 px or less is not flagged, but
`LongTextFix.checkForOverflow` flags (warns and pulses) a text message
with scrollHeight 103 and clientHeight 100. -/
theorem overflow_tolerance_counterexample :
    exC1.scrollHeight ≤ exC1.clientHeight + 5 ∧
    (checkForOverflowText exC1).2 = true ∧
    getStyleValue (checkForOverflowText exC1).1.styles "min-height" = some "103px" := by
  refine ⟨by decide, rfl, rfl⟩

/-- C1 (amended): `MobileTextFix.checkMobileOverflow` flags overflow
exactly when scrollHeight exceeds clientHeight plus the 5 px tolerance,
while `LongTextFix.checkForOverflow` flags exactly when scrollHeight
exceeds clientHeight, with no tolerance; an unflagged element is left
unchanged by either detector. -/
theorem overflow_detectors_amended (t : TextMsg) :
    ((checkMobileOverflow t).2 = true ↔ t.scrollHeight > t.clientHeight + 5) ∧
    ((checkForOverflowText t).2 = true ↔ t.scrollHeight > t.clientHeight) ∧
    ((checkMobileOverflow t).2 = false → (checkMobileOverflow t).1 = t) ∧
    ((checkForOverflowText t).2 = false → (checkForOverflowText t).1 = t) := by
  refine ⟨?_, ?_, ?_, ?_⟩
  · unfold checkMobileOverflow
    split_ifs with h <;> simp [h]
  · unfold checkForOverflowText
    split_ifs with h <;> simp [h]
  · unfold checkMobileOverflow
    split_ifs with h <;> simp [h]
  · unfold checkForOverflowText
    split_ifs with h <;> simp [h]

/-- C1 witness: at scrollHeight 103, clientHeight 100, the mobile
detector does not flag and leaves the element unchanged, while the
LongTextFix detector flags. -/
theorem overflow_detectors_amended_witness :
    (checkMobileOverflow exC1).2 = false ∧ (checkMobileOverflow exC1).1 = exC1 ∧
    (checkForOverflowText exC1).2 = true ∧ exC1.scrollHeight > exC1.clientHeight := by
  have h := overflow_detectors_amended exC1
  exact ⟨rfl, h.2.2.1 rfl, rfl, h.2.1.mp rfl⟩

/-- C2: on detected overflow each corrector sets min-height to the
measured scrollHeight in px; the deferred (100 ms) callback then sets
min-height back to auto, and that is the final value of the pulse. -/
theorem overflow_pulse_minheight (t : TextMsg) (hf : t.failing = []) :
    ((checkMobileOverflow t).2 = true →
      getStyleValue (checkMobileOverflow t).1.styles "min-height"
        = some (toString t.scrollHeight ++ "px") ∧
      getStyleValue (mobilePulseReset (checkMobileOverflow t).1).styles "min-height"
        = some "auto") ∧
    ((checkForOverflowText t).2 = true →
      getStyleValue (checkForOverflowText t).1.styles "min-height"
        = some (toString t.scrollHeight ++ "px") ∧
      getStyleValue (longPulseReset (checkForOverflowText t).1).styles "min-height"
        = some "auto") := by
  constructor
  · intro hflag
    by_cases h : t.scrollHeight > t.clientHeight + 5
    · have e1 : (checkMobileOverflow t).1
          = { t with styles :=
                fixElementStyles t.failing t.styles (mobilePulseOps t.scrollHeight) } := by
        unfold checkMobileOverflow
        rw [if_pos h]
      rw [e1]
      constructor
      · show getStyleValue (fixElementStyles t.failing t.styles (mobilePulseOps t.scrollHeight))
            "min-height" = _
        rw [hf]
        exact gsv_pulse_mobile t.styles t.scrollHeight
      · show getStyleValue (fixElementStyles t.failing _ mobileResetOps) "min-height" = _
        rw [hf]
        exact gsv_reset_mobile _
    · exfalso
      unfold checkMobileOverflow at hflag
      rw [if_neg h] at hflag
      exact Bool.false_ne_true hflag
  · intro hflag
    by_cases h : t.scrollHeight > t.clientHeight
    · have e1 : (checkForOverflowText t).1
          = { t with styles :=
                fixElementStyles t.failing t.styles (longPulseOps t.scrollHeight) } := by
        unfold checkForOverflowText
        rw [if_pos h]
      rw [e1]
      constructor
      · show getStyleValue (fixElementStyles t.failing t.styles (longPulseOps t.scrollHeight))
            "min-height" = _
        rw [hf]
        exact gsv_pulse_long t.styles t.scrollHeight
      · show getStyleValue (fixElementStyles t.failing _ longResetOps) "min-height" = _
        rw [hf]
        exact gsv_reset_long _
    · exfalso
      unfold checkForOverflowText at hflag
      rw [if_neg h] at hflag
      exact Bool.false_ne_true hflag

/-- Example text message with scrollHeight 150, clientHeight 100. -/
def exC2 : TextMsg :=
  { markdownRendered := false, scrollHeight := 150, clientHeight := 100,
    textNodes := [], links := [], pres := [], codes := [], styles := [], failing := [] }

/-- C2 witness: both pulses on a concrete overflowing element. -/
theorem overflow_pulse_minheight_witness :
    exC2.failing = [] ∧ (checkMobileOverflow exC2).2 = true ∧
    getStyleValue (checkMobileOverflow exC2).1.styles "min-height" = some "150px" ∧
    getStyleValue (mobilePulseReset (checkMobileOverflow exC2).1).styles "min-height"
      = some "auto" ∧
    (checkForOverflowText exC2).2 = true ∧
    getStyleValue (checkForOverflowText exC2).1.styles "min-height" = some "150px" ∧
    getStyleValue (longPulseReset (checkForOverflowText exC2).1).styles "min-height"
      = some "auto" := by
  have h := overflow_pulse_minheight exC2 rfl
  exact ⟨rfl, rfl, (h.1 rfl).1, (h.1 rfl).2, rfl, (h.2 rfl).1, (h.2 rfl).2⟩

/-- Example message with id "m1" and no styles yet. -/
def exC3 : MsgEl :=
  { dataMessageId := some "m1", idAttr := "", messageContent := none,
    textMessages := [], styles := [], failing := [], queryFails := false }

/-- C3 counterexample: the claim says a scan triggered by a resize
event does not reapply the style fixes to an element whose identifier
is tracked; but the only resize-triggered scan is
`MobileTextFix.applyMobileFixes` (registered in `init`), which
consults no tracked set and restyles the element even though its id is
in the LongTextFix set. -/
theorem tracked_skip_counterexample :
    messageId exC3 ∈ ["m1"] ∧
    applyMobileFixes false 800 [exC3] = [fixMobileMessage false 800 exC3] ∧
    getStyleValue (fixMobileMessage false 800 exC3).styles "max-width" = some "90%" ∧
    getStyleValue exC3.styles "max-width" = none := by
  refine ⟨by decide, rfl, rfl, rfl⟩

/-- C3 (amended): LongTextFix scans (interval and mutation triggered)
skip an element whose identifier is in the tracked set and process and
record exactly the untracked ones; MobileTextFix scans (interval,
mutation, resize, orientation triggered) consult no tracked set and
restyle every message element on every scan. -/
theorem tracked_skip_amended (fixed : List String) (m : MsgEl) (ms : List MsgEl)
    (small : Bool) (w : Nat) :
    fixMessages fixed (m :: ms)
      = (if fixed.contains (messageId m)
         then ((fixMessages fixed ms).1, m :: (fixMessages fixed ms).2)
         else ((fixMessages (messageId m :: fixed) ms).1,
               applyFixes m :: (fixMessages (messageId m :: fixed) ms).2)) ∧
    applyMobileFixes small w (m :: ms)
      = fixMobileMessage small w m :: applyMobileFixes small w ms :=
  ⟨fixMessages_cons fixed m ms, rfl⟩

/-- Example message element with neither data-message-id nor id. -/
def exC4a : MsgEl :=
  { dataMessageId := none, idAttr := "", messageContent := none,
    textMessages := [], styles := [], failing := [], queryFails := false }

/-- A second identifier-less message, distinct from `exC4a`. -/
def exC4b : MsgEl :=
  { dataMessageId := none, idAttr := "",
    messageContent := some { styles := [], failing := [] },
    textMessages := [], styles := [], failing := [], queryFails := false }

/-- C4 counterexample: the claim says the scan triggered by reset()
applies the fixes to every message element, but with two messages that
both lack identifiers (both map to "unknown"), the scan after reset
processes only the first; the second is returned unchanged even though
applying the fixes would change it. -/
theorem reset_rescan_counterexample :
    exC4a ≠ exC4b ∧
    (manualFix ["unknown"] [exC4a, exC4b]).2 = [applyFixes exC4a, exC4b] ∧
    applyFixes exC4b ≠ exC4b := by
  refine ⟨by decide, rfl, by decide⟩

/-- C4 (amended): after reset() the tracked set starts empty, and the
triggered scan reprocesses every message element regardless of prior
set membership, provided the identifiers in the container are pairwise
distinct (a duplicated identifier — e.g. two elements without ids —
is processed only once per scan). -/
theorem reset_rescan_amended (prev : List String) (container : List MsgEl)
    (h : (container.map messageId).Nodup) :
    (manualFix prev container).2 = container.map applyFixes := by
  unfold manualFix fixAllMessages
  exact fixMessages_all_fresh container [] (fun m _ => rfl) h

/-- Message with id "a". -/
def exC4c : MsgEl :=
  { dataMessageId := some "a", idAttr := "", messageContent := none,
    textMessages := [], styles := [], failing := [], queryFails := false }

/-- Message with id "b". -/
def exC4d : MsgEl :=
  { dataMessageId := some "b", idAttr := "", messageContent := none,
    textMessages := [], styles := [], failing := [], queryFails := false }

/-- C4 witness: both ids were tracked before the reset, and the scan
after reset still reprocesses both elements. -/
theorem reset_rescan_amended_witness :
    ([exC4c, exC4d].map messageId).Nodup ∧
    (manualFix ["a", "b"] [exC4c, exC4d]).2 = [applyFixes exC4c, applyFixes exC4d] :=
  ⟨by decide, reset_rescan_amended ["a", "b"] [exC4c, exC4d] (by decide)⟩

/-- C9: a message element with neither data-message-id nor id gets the
constant identifier "unknown"; once the scan has processed one such
element, any later identifier-less element is skipped by
`fixMessageElement`, until `reset()` empties the set, after which the
next identifier-less element is processed again (re-adding "unknown"). -/
theorem unknown_id_collision (m0 m : MsgEl) (fixed : List String)
    (h0a : m0.dataMessageId = none) (h0b : m0.idAttr = "")
    (ha : m.dataMessageId = none) (hb : m.idAttr = "") :
    messageId m = "unknown" ∧
    fixMessageElementStep (fixMessageElementStep fixed m0).1 m
      = ((fixMessageElementStep fixed m0).1, m) ∧
    fixMessageElementStep [] m = (["unknown"], applyFixes m) := by
  have hm : messageId m = "unknown" := by
    unfold messageId
    rw [ha, hb]
    rfl
  have hm0 : messageId m0 = "unknown" := by
    unfold messageId
    rw [h0a, h0b]
    rfl
  have hskip : ∀ (fx : List String) (mm : MsgEl),
      fx.contains (messageId mm) = true → fixMessageElementStep fx mm = (fx, mm) := by
    intro fx mm hc
    unfold fixMessageElementStep
    rw [if_pos hc]
  refine ⟨hm, ?_, ?_⟩
  · have hunk : ((fixMessageElementStep fixed m0).1).contains "unknown" = true := by
      unfold fixMessageElementStep
      rw [hm0]
      by_cases h : fixed.contains "unknown"
      · rw [if_pos h]
        exact h
      · rw [if_neg h]
        simp [List.contains_cons]
    apply hskip
    rw [hm]
    exact hunk
  · unfold fixMessageElementStep
    rw [hm]
    rfl

/-- Identifier-less message used by the C9 witness. -/
def exC9a : MsgEl :=
  { dataMessageId := none, idAttr := "", messageContent := none,
    textMessages := [], styles := [], failing := [], queryFails := false }

/-- Text message carried by `exC9b`. -/
def exC9t : TextMsg :=
  { markdownRendered := false, scrollHeight := 10, clientHeight := 10,
    textNodes := [], links := [], pres := [], codes := [], styles := [], failing := [] }

/-- A distinct identifier-less message used by the C9 witness. -/
def exC9b : MsgEl :=
  { dataMessageId := none, idAttr := "", messageContent := none,
    textMessages := [exC9t],
    styles := [], failing := [], queryFails := false }

/-- C9 witness: concrete collision of two identifier-less messages. -/
theorem unknown_id_collision_witness :
    exC9a.dataMessageId = none ∧ exC9a.idAttr = "" ∧
    exC9b.dataMessageId = none ∧ exC9b.idAttr = "" ∧
    messageId exC9b = "unknown" ∧
    fixMessageElementStep (fixMessageElementStep [] exC9a).1 exC9b
      = ((fixMessageElementStep [] exC9a).1, exC9b) ∧
    fixMessageElementStep [] exC9b = (["unknown"], applyFixes exC9b) := by
  have h := unknown_id_collision exC9a exC9b [] rfl rfl rfl rfl
  exact ⟨rfl, rfl, rfl, rfl, h.1, h.2.1, h.2.2⟩

/-- C5: both fix operations are idempotent: a second application of
`LongTextFix.applyFixes` or of `MobileTextFix.fixMobileMessage` to the
same element assigns the same property/value pairs and leaves the
element (and all its styled sub-elements) exactly as after the first
application. -/
theorem fix_idempotent (small : Bool) (w : Nat) (m : MsgEl) :
    applyFixes (applyFixes m) = applyFixes m ∧
    fixMobileMessage small w (fixMobileMessage small w m) = fixMobileMessage small w m :=
  ⟨applyFixes_idem m, fixMobileMessage_idem small w m⟩

/-- C6: a property whose setProperty throws is skipped and the
remaining properties are still applied; an exception thrown while
processing one element is caught (keeping the styles already applied
to it) and every sibling in the scan is still processed. -/
theorem error_isolation (f : List String) (st : List StyleDecl)
    (pre post : List (String × String)) (p v : String)
    (small : Bool) (w : Nat) (m : MsgEl) (ms1 ms2 : List MsgEl)
    (hp : f.contains p = true)
    (hm : ((rawFixMobileMessage small w m).2).isSome = true) :
    fixElementStyles f st (pre ++ (p, v) :: post) = fixElementStyles f st (pre ++ post) ∧
    applyMobileFixes small w (ms1 ++ m :: ms2)
      = applyMobileFixes small w ms1
        ++ fixMobileMessage small w m :: applyMobileFixes small w ms2 ∧
    fixMobileMessage small w m
      = { m with styles := fixElementStyles m.failing m.styles (mobileContainerOps small) } := by
  refine ⟨?_, ?_, ?_⟩
  · rw [fixElementStyles_eq, fixElementStyles_eq]
    congr 1
    unfold declsOf
    congr 1
    simp only [List.filter_append, List.filter_cons]
    rw [if_neg (by simpa using hp)]
  · unfold applyMobileFixes
    rw [List.map_append, List.map_cons]
  · cases m with
    | mk dmid idA mc tms st2 f2 qf =>
      cases qf with
      | true => exact fixMobileMessage_fail_eq small w _ rfl
      | false =>
        exfalso
        simp [rawFixMobileMessage] at hm

/-- Message whose sub-element query throws. -/
def exC6 : MsgEl :=
  { dataMessageId := some "e1", idAttr := "", messageContent := none,
    textMessages := [], styles := [], failing := ["badProp"], queryFails := true }

/-- Healthy sibling of `exC6`. -/
def exC6b : MsgEl :=
  { dataMessageId := some "e2", idAttr := "", messageContent := none,
    textMessages := [], styles := [], failing := [], queryFails := false }

/-- C6 witness: concrete failing property and concrete throwing element
with a healthy sibling. -/
theorem error_isolation_witness :
    (["badProp"].contains "badProp" = true) ∧
    ((rawFixMobileMessage false 800 exC6).2).isSome = true ∧
    fixElementStyles ["badProp"] []
        ([("height", "auto")] ++ ("badProp", "1px") :: [("overflow", "visible")])
      = fixElementStyles ["badProp"] [] ([("height", "auto")] ++ [("overflow", "visible")]) ∧
    applyMobileFixes false 800 ([] ++ exC6 :: [exC6b])
      = applyMobileFixes false 800 []
        ++ fixMobileMessage false 800 exC6 :: applyMobileFixes false 800 [exC6b] ∧
    fixMobileMessage false 800 exC6
      = { exC6 with styles :=
            fixElementStyles exC6.failing exC6.styles (mobileContainerOps false) } := by
  have h := error_isolation ["badProp"] [] [("height", "auto")] [("overflow", "visible")]
    "badProp" "1px" false 800 exC6 [] [exC6b] rfl rfl
  exact ⟨rfl, rfl, h.1, h.2.1, h.2.2⟩

/-- C7: whatever sub-elements a message element lacks, both fixes
complete without any exception, and each missing sub-element is
independently treated as absent: a missing `.message-content` stays
absent under `LongTextFix.applyFixes` and under
`MobileTextFix.fixMobileMessage`; a `.text-message` with no links, no
`pre` blocks or no inline codes keeps them absent under the respective
text-message loops; with every sub-element missing only the container
styles are applied; and replacing an element by one with the same
identifier leaves the processing of every other element of the scan
unchanged, in the LongTextFix scan as in the MobileTextFix scan. -/
theorem missing_subelements_safe (small : Bool) (w : Nat) (m m2 : MsgEl) (t : TextMsg)
    (fixed : List String) (ms : List MsgEl)
    (h1 : m.queryFails = false)
    (h5 : messageId m2 = messageId m) :
    (rawApplyFixes m).2 = none ∧
    (rawFixMobileMessage small w m).2 = none ∧
    (m.messageContent = none →
      (applyFixes m).messageContent = none ∧
      (fixMobileMessage small w m).messageContent = none) ∧
    (t.links = [] →
      (fixAndCheckLong t).links = [] ∧ (fixMobileTextMessage small w t).links = []) ∧
    (t.pres = [] → (fixAndCheckLong t).pres = []) ∧
    (t.codes = [] → (fixAndCheckLong t).codes = []) ∧
    (m.messageContent = none → m.textMessages = [] →
      applyFixes m
        = { m with styles := fixElementStyles m.failing m.styles longContainerOps } ∧
      fixMobileMessage small w m
        = { m with styles := fixElementStyles m.failing m.styles (mobileContainerOps small) }) ∧
    (fixMessages fixed (m :: ms)).1 = (fixMessages fixed (m2 :: ms)).1 ∧
    (fixMessages fixed (m :: ms)).2.tail = (fixMessages fixed (m2 :: ms)).2.tail ∧
    applyMobileFixes small w (m :: ms)
      = fixMobileMessage small w m :: applyMobileFixes small w ms := by
  refine ⟨?_, ?_, ?_, ?_, ?_, ?_, ?_, ?_, ?_, ?_⟩
  · unfold rawApplyFixes
    rw [if_neg (by simp [h1])]
  · unfold rawFixMobileMessage
    rw [if_neg (by simp [h1])]
  · intro hmc
    constructor
    · rw [applyFixes_eq m h1]
      simp [hmc]
    · rw [fixMobileMessage_eq small w m h1]
      simp [hmc]
  · intro hl
    constructor
    · rw [fixAndCheckLong_eq]
      simp [hl]
    · rw [fixMobileTextMessage_eq]
      simp [hl]
  · intro hp
    rw [fixAndCheckLong_eq]
    simp [hp]
  · intro hc
    rw [fixAndCheckLong_eq]
    simp [hc]
  · intro hmc htm
    constructor
    · rw [applyFixes_eq m h1]
      simp [hmc, htm]
    · rw [fixMobileMessage_eq small w m h1]
      simp [hmc, htm]
  · rw [fixMessages_cons, fixMessages_cons, h5]
    by_cases hc : fixed.contains (messageId m)
    · rw [if_pos hc, if_pos hc]
    · rw [if_neg hc, if_neg hc]
  · rw [fixMessages_cons, fixMessages_cons, h5]
    by_cases hc : fixed.contains (messageId m)
    · rw [if_pos hc, if_pos hc]
      rfl
    · rw [if_neg hc, if_neg hc]
      rfl
  · rfl

/-- Message with every sub-element missing. -/
def exC7 : MsgEl :=
  { dataMessageId := some "s1", idAttr := "", messageContent := none,
    textMessages := [], styles := [], failing := [], queryFails := false }

/-- A richer message with the same identifier as `exC7`. -/
def exC7b : MsgEl :=
  { dataMessageId := some "s1", idAttr := "",
    messageContent := some { styles := [], failing := [] },
    textMessages := [exC2], styles := [], failing := [], queryFails := false }

/-- Sibling used by the C7 witness. -/
def exC7c : MsgEl :=
  { dataMessageId := some "s2", idAttr := "", messageContent := none,
    textMessages := [], styles := [], failing := [], queryFails := false }

/-- Text message with no links, no pre blocks and no inline codes. -/
def exC7t : TextMsg :=
  { markdownRendered := false, scrollHeight := 40, clientHeight := 40,
    textNodes := [], links := [], pres := [], codes := [], styles := [], failing := [] }

/-- C7 witness: a concrete element with every sub-element missing, a
concrete text message with no links, pre blocks or inline codes, and a
same-identifier replacement with a concrete sibling. -/
theorem missing_subelements_safe_witness :
    exC7.queryFails = false ∧ messageId exC7b = messageId exC7 ∧
    exC7.messageContent = none ∧ exC7.textMessages = [] ∧
    exC7t.links = [] ∧ exC7t.pres = [] ∧ exC7t.codes = [] ∧
    (rawApplyFixes exC7).2 = none ∧
    (rawFixMobileMessage false 800 exC7).2 = none ∧
    (applyFixes exC7).messageContent = none ∧
    (fixMobileMessage false 800 exC7).messageContent = none ∧
    (fixAndCheckLong exC7t).links = [] ∧
    (fixMobileTextMessage false 800 exC7t).links = [] ∧
    (fixAndCheckLong exC7t).pres = [] ∧
    (fixAndCheckLong exC7t).codes = [] ∧
    applyFixes exC7
      = { exC7 with styles := fixElementStyles exC7.failing exC7.styles longContainerOps } ∧
    fixMobileMessage false 800 exC7
      = { exC7 with styles :=
            fixElementStyles exC7.failing exC7.styles (mobileContainerOps false) } ∧
    (fixMessages [] (exC7 :: [exC7c])).1 = (fixMessages [] (exC7b :: [exC7c])).1 ∧
    (fixMessages [] (exC7 :: [exC7c])).2.tail = (fixMessages [] (exC7b :: [exC7c])).2.tail ∧
    applyMobileFixes false 800 (exC7 :: [exC7c])
      = fixMobileMessage false 800 exC7 :: applyMobileFixes false 800 [exC7c] := by
  have h := missing_subelements_safe false 800 exC7 exC7b exC7t [] [exC7c] rfl rfl
  exact ⟨rfl, rfl, rfl, rfl, rfl, rfl, rfl, h.1, h.2.1,
    (h.2.2.1 rfl).1, (h.2.2.1 rfl).2,
    (h.2.2.2.1 rfl).1, (h.2.2.2.1 rfl).2,
    h.2.2.2.2.1 rfl, h.2.2.2.2.2.1 rfl,
    (h.2.2.2.2.2.2.1 rfl rfl).1, (h.2.2.2.2.2.2.1 rfl rfl).2,
    h.2.2.2.2.2.2.2.1, h.2.2.2.2.2.2.2.2.1, h.2.2.2.2.2.2.2.2.2⟩

/-- C8: every declaration written by the style-applying routine that is
not an old declaration carries the "important" priority, and the two
text-message style maps depend on the element only through the
markdown-rendered boolean (besides the is-small-screen boolean for the
mobile map); their whiteSpace entry is "normal" for markdown-rendered
elements and "pre-wrap" otherwise. -/
theorem style_map_important (f : List String) (st : List StyleDecl)
    (ops : List (String × String)) (d : StyleDecl) (small : Bool) (t t2 : TextMsg)
    (hd : d ∈ fixElementStyles f st ops)
    (hmd : t.markdownRendered = t2.markdownRendered) :
    (d ∈ st ∨ d.prio = "important") ∧
    mobileTextOps small t = mobileTextOps small t2 ∧
    longTextOps t = longTextOps t2 ∧
    (mobileTextOps small t).lookup "whiteSpace"
      = some (if t.markdownRendered then "normal" else "pre-wrap") ∧
    (longTextOps t).lookup "whiteSpace"
      = some (if t.markdownRendered then "normal" else "pre-wrap") := by
  refine ⟨?_, ?_, ?_, ?_, ?_⟩
  · rw [fixElementStyles_eq, applyDecls_canon] at hd
    rcases List.mem_append.mp hd with h1 | h2
    · exact Or.inl (List.mem_of_mem_filter h1)
    · right
      have hmem := mem_applyDecls_nil _ _ h2
      unfold declsOf at hmem
      rcases List.mem_map.mp hmem with ⟨pv, _, hpv⟩
      rw [← hpv]
  · unfold mobileTextOps
    rw [hmd]
  · unfold longTextOps
    rw [hmd]
  · unfold mobileTextOps
    cases htm : t.markdownRendered <;> rfl
  · unfold longTextOps
    cases htm : t.markdownRendered <;> rfl

/-- Markdown-rendered text message. -/
def exC8t : TextMsg :=
  { markdownRendered := true, scrollHeight := 0, clientHeight := 0,
    textNodes := [], links := [], pres := [], codes := [], styles := [], failing := [] }

/-- A different markdown-rendered text message. -/
def exC8t2 : TextMsg :=
  { markdownRendered := true, scrollHeight := 99, clientHeight := 7,
    textNodes := ["x"], links := [], pres := [], codes := [], styles := [], failing := [] }

/-- C8 witness: concrete declaration and concrete pair of elements that
agree on the markdown-rendered boolean. -/
theorem style_map_important_witness :
    ((⟨"height", "auto", "important"⟩ : StyleDecl)
      ∈ fixElementStyles [] [] [("height", "auto")]) ∧
    exC8t.markdownRendered = exC8t2.markdownRendered ∧
    ((⟨"height", "auto", "important"⟩ : StyleDecl) ∈ ([] : List StyleDecl) ∨
      (⟨"height", "auto", "important"⟩ : StyleDecl).prio = "important") ∧
    mobileTextOps false exC8t = mobileTextOps false exC8t2 ∧
    longTextOps exC8t = longTextOps exC8t2 ∧
    (mobileTextOps false exC8t).lookup "whiteSpace" = some "normal" ∧
    (longTextOps exC8t).lookup "whiteSpace" = some "normal" := by
  have h := style_map_important [] [] [("height", "auto")] ⟨"height", "auto", "important"⟩
    false exC8t exC8t2 (by decide) rfl
  exact ⟨by decide, rfl, h.1, h.2.1, h.2.2.1, h.2.2.2.1, h.2.2.2.2⟩

/-- C10: on a non-mobile device (user-agent test fails and it is not a
touch device with viewport width at most 768) constructing
MobileTextFix registers no listeners, no observer and no interval, and
leaves every message element untouched. -/
theorem nonmobile_init_noop (env : DeviceEnv) (msgs : List MsgEl)
    (h1 : isMobileUA env.userAgent = false)
    (h2 : env.touchDevice = false ∨ 768 < env.innerWidth) :
    mobileInit env msgs = (emptyEffects, msgs) := by
  have hd : detectMobile env = false := by
    unfold detectMobile
    rw [h1]
    rcases h2 with h | h
    · rw [h]
      rfl
    · have hw : decide (env.innerWidth ≤ 768) = false :=
        decide_eq_false (Nat.not_le.mpr h)
      rw [hw, Bool.and_false, Bool.or_false]
  unfold mobileInit
  rw [hd]
  rfl

/-- Non-mobile environment used by the C10 witness. -/
def exC10env : DeviceEnv :=
  { userAgent := "desktop firefox", touchDevice := false, innerWidth := 1920,
    docLoading := false, hasMessageList := true }

/-- Message used by the C10 witness. -/
def exC10msg : MsgEl :=
  { dataMessageId := some "d1", idAttr := "", messageContent := none,
    textMessages := [exC2], styles := [], failing := [], queryFails := false }

/-- C10 witness: a desktop environment leaves everything untouched. -/
theorem nonmobile_init_noop_witness :
    isMobileUA exC10env.userAgent = false ∧
    (exC10env.touchDevice = false ∨ 768 < exC10env.innerWidth) ∧
    mobileInit exC10env [exC10msg] = (emptyEffects, [exC10msg]) :=
  ⟨rfl, Or.inl rfl, nonmobile_init_noop exC10env [exC10msg] rfl (Or.inl rfl)⟩

end WxChat
